import Mathlib

/-!
# Verification of the youmirror core modules

Shallow embedding of the youmirror repository (modules `tuber.py` — the URL
parser, `databaser.py` — the record-store access layer, `helper.py` — the
filetree helper, `downloader.py`, and `core.py` — the `YouMirror`
orchestrator), together with theorems settling the specification claims
about URL classification, table access, path planning, and the
`add`/`remove` operations.

Functions of this repository that are imported by the sources but whose
module is not part of the source tree (`youmirror.filer`,
`youmirror.configurer`) are modelled from the specification; each such
definition carries a doc comment starting with `Modelled from the spec:`.
External collaborators (the pytube client, the clock, terminal input) are
modelled as explicit oracle arguments.
-/

/-- `pat` occurs as a contiguous sublist of `s` (substring test on the
character lists; mirrors Python's `in` operator on strings). -/
def substrAux (pat : List Char) : List Char → Bool
  | [] => pat.isEmpty
  | c :: rest => pat.isPrefixOf (c :: rest) || substrAux pat rest

/-- Python `pat in s` for strings. -/
def containsStr (s pat : String) : Bool :=
  substrAux pat.toList s.toList

/-! ## tuber.py (the `parser` module): URL classification -/

/-- tuber.py line 17: the possible substrings for a channel url. -/
def channel_strings : List String := ["/user/", "/channel/", "/c/"]

/-- tuber.py lines 13-26: `link_type` narrows a link down to
`"channel"`, `"playlist"` or `"single"`, returning `None` (here `none`)
when no known marker occurs in the url. -/
def link_type (url : String) : Option String :=
  if channel_strings.any (fun s => containsStr url s) then some "channel"
  else if containsStr url "playlist?list" then some "playlist"
  else if containsStr url "watch?v=" then some "single"
  else none

/-- Spec-side predicate: the url contains one of the channel markers. -/
def hasChannelMarker (url : String) : Bool :=
  channel_strings.any (fun s => containsStr url s)

/-- Spec-side predicate: the url contains the playlist marker. -/
def hasPlaylistMarker (url : String) : Bool :=
  containsStr url "playlist?list"

/-- Spec-side predicate: the url contains the single-video marker. -/
def hasSingleMarker (url : String) : Bool :=
  containsStr url "watch?v="

/-! ## databaser.py: the record store -/

/-- downloader.py line 19: the ordered list of valid resolutions. -/
def resolutions : List String :=
  ["2160p", "1440p", "1080p", "720p", "480p", "360p", "240p", "144p"]

/-- databaser.py line 56: the set of table names `get_table` accepts.
Note the first three are singular while the module docstring (databaser.py
lines 8-46) and every caller in core.py use the plural forms. -/
def valid_tables : List String := ["channel", "playlist", "single", "paths", "files"]

/-- One planned artifact for a single: tuber.py `get_files` produces
`{filepath: {"type": file_type, "caption_type": caption_type}}`. -/
structure FileRec where
  ftype : String
  caption_type : Option String := none
deriving DecidableEq, Repr

/-- The keys dictionary built by tuber.py `get_keys` (and the shapes it is
seeded with from core.py).  Python uses a plain dict; fields that may be
absent are `Option`s here, `none` meaning the key is not in the dict. -/
structure Keys where
  name : String := ""
  url : String := ""
  children : Option (List String) := none
  available : Option Bool := none
  path : Option String := none
  parent_id : Option String := none
  parent_name : Option String := none
  parent_type : Option String := none
  files : Option (List (String × FileRec)) := none
deriving DecidableEq, Repr

/-- A value stored in a record-store table: a full entity record
(channels/playlists/singles tables), a `{"type": ...}` marker written by
core.py lines 158/167/190, or a file record written by the final
`files_table.update(files)` at core.py line 218. -/
inductive Rec where
  | entity (k : Keys)
  | marker (t : String)
  | fileInfo (fr : FileRec)
deriving DecidableEq, Repr

/-- A record-store table: an association list from id (or path string) to
record, standing for one sqlitedict table. -/
abbrev Table := List (String × Rec)

/-- The record-store file: the named tables it contains. -/
abbrev DB := List (String × Table)

/-- databaser.py lines 58-66: `get_table` returns the table matching the
string when the name is in `valid_tables`, and `None` otherwise (a
`SqliteDict` on a name present in the db file opens its contents; on an
absent name it opens an empty table). -/
def get_table (db : DB) (table : String) : Option Table :=
  if table ∈ valid_tables then some ((db.lookup table).getD []) else none

/-- Upsert into a table, keeping the remaining entries in place
(`table[id] = keys` on a sqlitedict). -/
def tableSet (tb : Table) (id : String) (v : Rec) : Table :=
  match tb with
  | [] => [(id, v)]
  | (k, w) :: rest => if k == id then (id, v) :: rest else (k, w) :: tableSet rest id v

/-- Write-through of an autocommitted table write into the db file: each
`table[id] = v` on a `SqliteDict` opened with `autocommit=True` is
immediately durable (databaser.py line 63). -/
def dbSet (db : DB) (t : String) (id : String) (v : Rec) : DB :=
  match db with
  | [] => [(t, [(id, v)])]
  | (n, tb) :: rest =>
      if n == t then (n, tableSet tb id v) :: rest else (n, tb) :: dbSet rest t id v

/-! ## The pytube objects and the tuber.py resolution layer

The pytube client is out of scope for the repository (spec section 1); a
resolved pytube object is modelled as the data the tuber functions read
off it: its type, its id/name/url attributes, its child ids, and whether
its `check_availability` probe succeeds. -/

/-- A resolved pytube object (`YouTube`, `Channel` or `Playlist`):
`kind` is `"single"`, `"channel"` or `"playlist"`; `probe_ok` records
whether `check_availability()` returns normally or raises. -/
structure YT where
  kind : String
  id : String
  name : String
  url : String
  children : List String := []
  probe_ok : Bool := true
deriving DecidableEq, Repr

/-- tuber.py lines 39-48: `yt_to_type_string` translates the pytube type
to a string, `None` for any other type. -/
def yt_to_type_string (yt : YT) : Option String :=
  if yt.kind == "channel" || yt.kind == "playlist" || yt.kind == "single" then
    some yt.kind
  else none

/-- tuber.py lines 111-125: `get_id` reads the id attribute matching the
pytube type (`video_id` / `channel_uri` / `playlist_id`), `None` for any
other type. -/
def get_id (yt : YT) : Option String :=
  if (yt_to_type_string yt).isSome then some yt.id else none

/-- tuber.py lines 127-137: `get_name` reads the name attribute matching
the pytube type, `None` for any other type. -/
def get_name (yt : YT) : Option String :=
  if (yt_to_type_string yt).isSome then some yt.name else none

/-- tuber.py lines 139-149: `get_url` reads the url attribute matching
the pytube type, `None` for any other type. -/
def get_url (yt : YT) : Option String :=
  if (yt_to_type_string yt).isSome then some yt.url else none

/-- tuber.py lines 68-73: the FIRST definition of `is_available`.  It
calls `yt.check_availability()`, logs when the probe raises, and falls
through to `return True` in every case — the optimistic variant.  This
binding is shadowed by the second definition at lines 189-197 before any
caller resolves the name. -/
def is_available_early (_yt : YT) : Bool :=
  true

/-- tuber.py lines 189-197: the SECOND (effective) definition of
`is_available`: `True` when `check_availability()` returns normally,
`False` when it raises.  Being the later module-level `def`, this is the
binding `get_metadata` actually calls. -/
def is_available (yt : YT) : Bool :=
  yt.probe_ok

/-- tuber.py lines 51-66: `get_metadata` returns name and url, plus
`children` and `available = True` for containers, or
`available = is_available(yt)` for a single.  The child-id derivation via
`link_id` delegates to pytube's extract module (external); the child ids
are taken from the resolved object. -/
def get_metadata (yt : YT) : Keys :=
  let base : Keys := { name := (get_name yt).getD "", url := (get_url yt).getD "" }
  if yt.kind == "channel" || yt.kind == "playlist" then
    { base with children := some yt.children, available := some true }
  else if yt.kind == "single" then
    { base with available := some (is_available yt) }
  else base

/-- Python `keys.update(metadata)`: the metadata dict always carries
`name` and `url`, and carries `children`/`available` only when
`get_metadata` put them there; keys absent from the metadata keep their
previous value. -/
def updateKeys (keys m : Keys) : Keys :=
  { keys with
    name := m.name
    url := m.url
    children := m.children.orElse (fun _ => keys.children)
    available := m.available.orElse (fun _ => keys.available) }

/-! ## The filer module (path planner)

tuber.py imports `youmirror.filer` and calls `filer.calculate_path`,
`filer.resolve_collision` and `filer.calculate_filename`; the filer module
itself is not part of the source tree (helper.py holds an older filetree
helper whose functions take different arguments and are not the ones the
call sites use), so these three are modelled from the specification. -/

/-- pytube's `safe_filename` followed by `.replace(' ', '_')`, the
sanitisation tuber.py line 249 applies to a name before placing it in a
path; modelled as replacing spaces by underscores. -/
def safe_name (s : String) : String :=
  String.mk (s.toList.map (fun c => if c == ' ' then '_' else c))

/-- The directory a kind sorts under in the tall layout (helper.py line
128: channels / playlists / singles). -/
def yt_string_to_dir (ys : String) : Option String :=
  if ys == "channel" then some "channels"
  else if ys == "playlist" then some "playlists"
  else if ys == "single" then some "singles"
  else none

/-- Modelled from the spec: `filer.calculate_path` (module absent from the
source tree).  Spec section 4.3 and the tall layout of helper.py lines
12-30: an entity's directory is its kind's plural directory, extended by
the container's name for a channel or playlist; a standalone single's
files live directly under `singles` (helper.py lines 131-132 return just
the kind directory for a `YouTube` object, matching the spec scenario path
`singles/My_Video.mp4`).  Called as
`calculate_path(yt_string, keys["name"], "")` for containers and
`calculate_path(yt_string, "", keys["name"])` for singles
(tuber.py lines 232 and 246). -/
def calculate_path (ys parent_name _name : String) : String :=
  match yt_string_to_dir ys with
  | some d => if ys == "single" then d else d ++ "/" ++ parent_name
  | none => ""

/-- Modelled from the spec: `filer.resolve_collision` (module absent from
the source tree).  Spec section 4.3: if `path` already exists in the known
path set, the stable entity id is appended as a suffix to disambiguate;
otherwise the path is returned unchanged. -/
def resolve_collision (path : String) (paths : List String) (id : String) : String :=
  if path ∈ paths then path ++ id else path

/-- Modelled from the spec: `filer.calculate_filename` (module absent from
the source tree).  Spec section 4.3: a fixed file-type-to-extension
mapping (video → container format `.mp4`, audio → `.mp3`, caption →
`.srt`, thumbnail → `.jpg`), applied to the sanitised entity name. -/
def calculate_filename (file_type name : String) : String :=
  let ext :=
    if file_type == "video" then ".mp4"
    else if file_type == "audio" then ".mp3"
    else if file_type == "caption" then ".srt"
    else if file_type == "thumbnail" then ".jpg"
    else ""
  safe_name name ++ ext

/-- The options dictionary core.py assembles from the configurer defaults,
the global config section and the CLI kwargs (the CLI passes every one of
these flags explicitly, cli.py line 54). -/
structure Options where
  resolution : Option String := none
  dl_video : Bool := false
  dl_audio : Bool := false
  dl_captions : Bool := false
  dl_thumbnail : Bool := false
  captions : List String := []
  force : Bool := false
  no_dl : Bool := false
deriving DecidableEq, Repr

/-- tuber.py lines 163-187: `get_files` returns the dict of filenames to
download, iterating the `to_download` dict in its insertion order (video,
audio, caption, thumbnail) and keeping only the file types whose flag is
set; captions expand over the configured caption types.  Each filepath is
`str(Path(path)/filename)`. -/
def get_files (path yt_name : String) (o : Options) : List (String × FileRec) :=
  (if o.dl_video then
    [(path ++ "/" ++ calculate_filename "video" yt_name, { ftype := "video" })] else []) ++
  (if o.dl_audio then
    [(path ++ "/" ++ calculate_filename "audio" yt_name, { ftype := "audio" })] else []) ++
  (if o.dl_captions then
    o.captions.map (fun ct =>
      (path ++ "/" ++ calculate_filename "caption" (yt_name ++ "_" ++ ct),
       { ftype := "caption", caption_type := some ct })) else []) ++
  (if o.dl_thumbnail then
    [(path ++ "/" ++ calculate_filename "thumbnail" yt_name, { ftype := "thumbnail" })] else [])

/-- tuber.py lines 200-257: `get_keys` computes the record to store for a
pytube object.  It merges the metadata into the seeded keys, then for a
container computes `path = resolve_collision(calculate_path(...), paths,
id)`; for a single it defaults `parent_name`/`parent_type`, resets the
type string to the parent type when one was seeded, computes the path
(from scratch, or under the seeded parent path with the sanitised name),
and attaches the planned files; any other type yields `None`. -/
def get_keys (yt : YT) (keys0 : Keys) (o : Options) (paths : List String) : Option Keys :=
  let keys := updateKeys keys0 (get_metadata yt)
  match yt_to_type_string yt with
  | some "channel" =>
      let p := calculate_path "channel" keys.name ""
      some { keys with path := some (resolve_collision p paths yt.id) }
  | some "playlist" =>
      let p := calculate_path "playlist" keys.name ""
      some { keys with path := some (resolve_collision p paths yt.id) }
  | some "single" =>
      let keys := if keys.parent_name = none then { keys with parent_name := some "None" } else keys
      let ys := (keys.parent_type).getD "single"
      let keys := if keys.parent_type = none then { keys with parent_type := some "single" } else keys
      let pathv :=
        match keys.path with
        | none => resolve_collision (calculate_path ys "" keys.name) paths yt.id
        | some p => resolve_collision (p ++ "/" ++ safe_name keys.name) paths yt.id
      some { keys with
              path := some pathv
              files := some (get_files pathv keys.name o) }
  | _ => none

/-! ## The config file and the configurer module

core.py imports `youmirror.configurer` (load/save config, `yt_exists`);
the configurer module is not part of the source tree, so its data model
and the presence test are modelled from the specification (spec section 6:
the config lists, per entity kind, a mapping from stable id to
`{name, url, last_updated, resolution?}`; it is round-trippable, so the
file is modelled by the configuration value it holds). -/

/-- One entity entry of the config file (core.py line 121: the specs
dictionary written under the entity's id). -/
structure Specs where
  name : String
  url : String
  last_updated : String
  resolution : Option String := none
deriving DecidableEq, Repr

/-- Modelled from the spec: the config document — per entity kind a
mapping from stable id to specs. -/
structure Config where
  channel : List (String × Specs) := []
  playlist : List (String × Specs) := []
  single : List (String × Specs) := []
deriving DecidableEq, Repr

/-- The section of the config for a kind string (`self.config[yt_string]`;
the config document always carries the three kind sections). -/
def Config.kindSection (c : Config) (ys : String) : List (String × Specs) :=
  if ys == "channel" then c.channel
  else if ys == "playlist" then c.playlist
  else if ys == "single" then c.single
  else []

/-- Modelled from the spec: `configurer.yt_exists` (module absent from the
source tree) — whether the id is already declared under the kind's section
of the config. -/
def yt_exists (ys id : String) (c : Config) : Bool :=
  (((c.kindSection ys).lookup id)).isSome

/-- Upsert into one kind section of the config
(`self.config[yt_string][id] = specs`, core.py line 130). -/
def sectionSet (sec : List (String × Specs)) (id : String) (s : Specs) :
    List (String × Specs) :=
  match sec with
  | [] => [(id, s)]
  | (k, w) :: rest => if k == id then (id, s) :: rest else (k, w) :: sectionSet rest id s

/-- `self.config[yt_string][id] = specs` on the whole document. -/
def Config.insertYt (c : Config) (ys id : String) (s : Specs) : Config :=
  if ys == "channel" then { c with channel := sectionSet c.channel id s }
  else if ys == "playlist" then { c with playlist := sectionSet c.playlist id s }
  else if ys == "single" then { c with single := sectionSet c.single id s }
  else c

/-- `del self.config[yt_string][id]` (core.py line 305). -/
def Config.removeYt (c : Config) (ys id : String) : Config :=
  if ys == "channel" then { c with channel := c.channel.filter (fun p => p.1 != id) }
  else if ys == "playlist" then { c with playlist := c.playlist.filter (fun p => p.1 != id) }
  else if ys == "single" then { c with single := c.single.filter (fun p => p.1 != id) }
  else c

/-! ## The persistent mirror state and the orchestrator -/

/-- What persists on disk between operations: the config file and the
record-store file, each possibly missing. -/
structure MirrorState where
  configFile : Option Config := none
  dbFile : Option DB := none
deriving DecidableEq, Repr

/-- The external resolution results an `add`/`remove` run consumes:
`link_id` models pytube's extract function on the url (core.py line
101) and `pytube` models `parser.get_pytube(url)` (core.py line 107),
`none` standing for a failed extraction/resolution. -/
structure Resolver where
  link_id : Option String := none
  pytube : Option YT := none
deriving DecidableEq, Repr

/-- core.py lines 89-91: the resolution option is rejected when it is
present and not among downloader.py's `resolutions`. -/
def resolutionInvalid (o : Options) : Bool :=
  match o.resolution with
  | some r => decide (r ∉ resolutions)
  | none => false

/-- The plural table name core.py's `string_to_table` dict associates to
an entity kind string (core.py lines 135-141: the translation dict maps
`"channel"` to the table requested as `"channels"`, and so on). -/
def pluralOf (ys : String) : String :=
  if ys == "channel" then "channels"
  else if ys == "playlist" then "playlists"
  else if ys == "single" then "singles"
  else ys

/-- How a run of `YouMirror.add` ended. -/
inductive AddOutcome where
  | missingConfig
  | missingDb
  | badResolution
  | invalidUrl
  | noId
  | alreadyExists
  | parseFailed
  | crashed (msg : String)
  | savedNoDl
  | aborted
  | saved
deriving DecidableEq, Repr

/-- How a run of `YouMirror.remove` ended. -/
inductive RemoveOutcome where
  | missingConfig
  | invalidUrl
  | notFound
  | crashed (msg : String)
  | removed
deriving DecidableEq, Repr

namespace YouMirror

/-- core.py lines 59-238: `YouMirror.add`, embedded as a transition on the
persistent mirror state.  External effects are oracle arguments: `rsv`
carries the pytube resolution results, `ans` the answer typed at the
confirmation prompt, `today` the formatted current date.  Loading an
existing config file is the external serializer and is modelled as
reading the document the file holds. -/
def add (st : MirrorState) (url : String) (rsv : Resolver) (opts : Options)
    (ans : Bool) (today : String) : MirrorState × AddOutcome :=
  -- core.py 70-75: the config and db files must exist
  match st.configFile with
  | none => (st, .missingConfig)
  | some cfg =>
  match st.dbFile with
  | none => (st, .missingDb)
  | some db =>
  -- core.py 89-91: reject an invalid resolution option
  if resolutionInvalid opts then (st, .badResolution)
  else
  -- core.py 98-100: classify the url
  match link_type url with
  | none => (st, .invalidUrl)
  | some ys0 =>
  -- core.py 101-103: extract the id (pytube extract, via the oracle)
  match rsv.link_id with
  | none => (st, .noId)
  | some id0 =>
  -- core.py 104-106: a url already in the mirror is reported and the
  -- operation returns before anything is opened or written
  if yt_exists ys0 id0 cfg then (st, .alreadyExists)
  else
  -- core.py 107-109: wrap the url in a pytube object (via the oracle)
  match rsv.pytube with
  | none => (st, .parseFailed)
  | some yt =>
  -- core.py 115-130: collect the specs and put them into the in-memory
  -- config; `self.config[yt_string]` raises KeyError for an invalid kind
  match yt_to_type_string yt with
  | none => (st, .crashed "KeyError: invalid entity kind")
  | some ys =>
  let specs : Specs :=
    { name := yt.name, url := yt.url, last_updated := today,
      resolution := opts.resolution }
  let cfg1 := cfg.insertYt ys yt.id specs
  -- core.py 135-141: open the five tables; get_table rejects the plural
  -- names "channels"/"playlists"/"singles" (databaser.py line 56), so the
  -- three entity-table handles are None while "paths"/"files" resolve
  let paths_table := get_table db "paths"
  let _files_table := get_table db "files"
  -- core.py 145-148: the local paths/files dicts start empty; get_keys is
  -- called with the merged `paths_table | paths` path set (core.py line
  -- 148 also passes a merged files dict that get_keys's four-parameter
  -- signature does not declare)
  let mergedPaths := (paths_table.getD []).map Prod.fst
  match get_keys yt {} opts mergedPaths with
  | none => (st, .crashed "TypeError: NoneType keys")
  | some keys =>
  -- core.py 150-151: `table = string_to_table[yt_string]; table[id] = keys`
  -- — the entity-table handle is None, so the item assignment raises
  match get_table db (pluralOf ys) with
  | none => (st, .crashed "TypeError: item assignment on None table")
  | some _ =>
  -- Unreachable in the source as shipped (get_table never accepts the
  -- plural names); continued faithfully for completeness.
  let db1 := dbSet db (pluralOf ys) yt.id (.entity keys)
  -- core.py 154-159: a single's files are marked in the files table
  let withFiles : DB × List (String × FileRec) :=
    match keys.files with
    | some fs => (fs.foldl (fun d f => dbSet d "files" f.1 (.marker "file")) db1, fs)
    | none => (db1, [])
  let db2 := withFiles.1
  let files := withFiles.2
  match keys.children with
  | some _ =>
      -- core.py line 164 reads keys["paths"], a key get_keys never sets
      ({ st with dbFile := some db2 }, .crashed "KeyError: paths")
  | none =>
  -- core.py 194-198: with no_dl the config is saved and the run stops
  if opts.no_dl then
    ({ st with dbFile := some db2, configFile := some cfg1 }, .savedNoDl)
  else
  -- core.py 202-208: the download-size loop reads files[id], but the
  -- files dict is keyed by filepath, not by video id
  match files.lookup yt.id with
  | none => ({ st with dbFile := some db2 }, .crashed "KeyError: files[id]")
  | some _ =>
  -- core.py 211-216: the confirmation gate; declining returns with the
  -- writes made so far persisted and the config file untouched
  if !opts.force && !ans then ({ st with dbFile := some db2 }, .aborted)
  else
  -- core.py 218-229: the final batch updates and the config save
  let db3 := files.foldl (fun d f => dbSet d "files" f.1 (.fileInfo f.2)) db2
  ({ st with dbFile := some db3, configFile := some cfg1 }, .saved)

/-- core.py lines 240-307: `YouMirror.remove`, embedded as a transition on
the persistent mirror state.  Note the db-file existence check at lines
260-261 logs but, unlike the config check, does not return. -/
def remove (st : MirrorState) (url : String) (rsv : Resolver) (_no_rm : Bool) :
    MirrorState × RemoveOutcome :=
  -- core.py 257-259: the config file must exist
  match st.configFile with
  | none => (st, .missingConfig)
  | some cfg =>
  -- core.py 260-261: the db check has no early return on failure
  let db := st.dbFile.getD []
  -- core.py 265-267: classify the url
  match link_type url with
  | none => (st, .invalidUrl)
  | some ys =>
  -- core.py 268-269: wrap in a pytube object and read its id (oracle);
  -- a failed resolution makes get_id return None, which is then absent
  -- from the config
  match rsv.pytube.bind get_id with
  | none => (st, .notFound)
  | some id =>
  -- core.py 272-276: ids not in the config are reported and the run stops
  if !yt_exists ys id cfg then (st, .notFound)
  else
  -- core.py 279-289: open the tables ("channels"/"playlists"/"singles"/
  -- "filetree" are all rejected by get_table), then `id in table` on the
  -- None handle raises
  match get_table db (pluralOf ys) with
  | none => (st, .crashed "TypeError: membership test on None table")
  | some _ =>
  -- Unreachable in the source as shipped; continued faithfully: the
  -- deletion of records and files is an unimplemented skeleton (core.py
  -- 288-303) and no_rm is never read, only the config entry is dropped
  let cfg1 := cfg.removeYt ys id
  ({ st with configFile := some cfg1 }, .removed)

end YouMirror

/-! ## Concrete fixtures used by the claim theorems -/

/-- A standalone single video as resolved by the client. -/
def abc123Video : YT :=
  { kind := "single", id := "abc123", name := "My Video",
    url := "https://www.youtube.com/watch?v=abc123" }

/-- A freshly initialised mirror: empty config document, empty record
store, both files present. -/
def freshState : MirrorState := { configFile := some {}, dbFile := some [] }

/-- The resolver results for `abc123Video`'s url. -/
def abc123Resolver : Resolver := { link_id := some "abc123", pytube := some abc123Video }

/-- The CLI's default `add` options: only video download enabled,
resolution 720p (cli.py lines 42-49). -/
def videoOpts : Options := { resolution := some "720p", dl_video := true }

/-! ## Claim theorems -/

/-- C2: the claim says `get_table` succeeds for the five declared table
kinds — channels, playlists, singles, paths, files — and in particular
accepts the names core.py's `add` requests.  In the code `valid_tables`
(databaser.py line 56) holds the singular forms for the entity tables, so
the plural names every caller uses (core.py lines 135-139 and 279-282,
and the databaser module docstring's own schema) are rejected with `None`,
while the singular names nothing requests are the ones accepted. -/
theorem get_table_rejects_plural_entity_names (db : DB) :
    get_table db "channels" = none ∧
    get_table db "playlists" = none ∧
    get_table db "singles" = none ∧
    get_table db "filetree" = none ∧
    (get_table db "paths").isSome = true ∧
    (get_table db "files").isSome = true ∧
    (get_table db "channel").isSome = true ∧
    (get_table db "playlist").isSome = true ∧
    (get_table db "single").isSome = true :=
  ⟨rfl, rfl, rfl, rfl, rfl, rfl, rfl, rfl, rfl⟩

/-- C1: the claim says that when the confirmation prompt is reached with
the force flag unset and the user declines, `add` leaves the record store
and config exactly as before.  Evaluating `add` on a fresh mirror and a
new single video shows the prompt is never reached: the run raises at the
entity-table item assignment (core.py line 151), because `get_table`
returned `None` for `"singles"`; the outcome is a crash, not the claimed
clean abort (and the pre-prompt writes of core.py lines 151-191 go to
autocommitted tables, so with resolving table handles they would already
be durable before the prompt). -/
theorem add_decline_gate_unreachable :
    YouMirror.add freshState "https://www.youtube.com/watch?v=abc123"
      abc123Resolver videoOpts false "2026-10-12" =
    (freshState, .crashed "TypeError: item assignment on None table") := by
  decide

/-- C3: the claim says `add` and `remove` never let an exception escape.
Evaluating both on well-formed inputs refutes this: `add` of a new valid
single raises `TypeError` at the entity-table write (core.py line 151),
and `remove` of a mirrored single raises `TypeError` at the `id in table`
membership test on the `None` table handle (core.py line 289). -/
theorem add_and_remove_raise_on_valid_input :
    (YouMirror.add
      { configFile := some {}, dbFile := some [] }
      "https://www.youtube.com/watch?v=xyz789"
      { link_id := some "xyz789",
        pytube := some { kind := "single", id := "xyz789", name := "Clip",
                         url := "https://www.youtube.com/watch?v=xyz789" } }
      videoOpts true "2026-10-12").2 =
      .crashed "TypeError: item assignment on None table" ∧
    (YouMirror.remove
      { configFile := some
          { single := [("xyz789",
              { name := "Clip", url := "https://www.youtube.com/watch?v=xyz789",
                last_updated := "2026-10-12" })] },
        dbFile := some [] }
      "https://www.youtube.com/watch?v=xyz789"
      { link_id := some "xyz789",
        pytube := some { kind := "single", id := "xyz789", name := "Clip",
                         url := "https://www.youtube.com/watch?v=xyz789" } }
      false).2 =
      .crashed "TypeError: membership test on None table" := by
  decide

/-- C4 counterexample: the claim says every URL containing one of the
known shape markers is classified as the corresponding kind.  The url
below contains the single-video marker `watch?v=` yet is classified as a
channel, because the channel marker `/c/` is tested first. -/
theorem link_type_marker_overridden_by_precedence :
    hasSingleMarker "https://www.youtube.com/c/chan/watch?v=abc" = true ∧
    link_type "https://www.youtube.com/c/chan/watch?v=abc" ≠ some "single" := by
  decide

/-- C4 (amended): `link_type` is total and deterministic; it returns
`none` exactly when the string contains none of the known markers, and
whenever it returns a kind the URL contains that kind's marker (the kind
chosen being the highest-precedence marker present, per C10). -/
theorem link_type_total_on_markers (url : String) :
    (link_type url = none ↔
      (hasChannelMarker url || hasPlaylistMarker url || hasSingleMarker url) = false) ∧
    (link_type url = some "channel" → hasChannelMarker url = true) ∧
    (link_type url = some "playlist" → hasPlaylistMarker url = true) ∧
    (link_type url = some "single" → hasSingleMarker url = true) := by
  unfold link_type hasChannelMarker hasPlaylistMarker hasSingleMarker
  split_ifs with h1 h2 h3 <;> simp_all

/-- C4 witness: the amended theorem applied at concrete URLs of each
shape, discharging each hypothesis there. -/
theorem link_type_total_on_markers_witness :
    hasChannelMarker "https://www.youtube.com/c/somebody" = true ∧
    hasPlaylistMarker "https://www.youtube.com/playlist?list=PL1" = true ∧
    hasSingleMarker "https://www.youtube.com/watch?v=abc123" = true ∧
    link_type "https://example.org/nothing" = none :=
  ⟨(link_type_total_on_markers "https://www.youtube.com/c/somebody").2.1 (by decide),
   (link_type_total_on_markers "https://www.youtube.com/playlist?list=PL1").2.2.1 (by decide),
   (link_type_total_on_markers "https://www.youtube.com/watch?v=abc123").2.2.2 (by decide),
   (link_type_total_on_markers "https://example.org/nothing").1.mpr (by decide)⟩

/-- C5 counterexample: the claim says `resolve_collision` is idempotent
for every (path, id) pair.  When the id-suffixed path is itself already in
the known path set, a second application appends the id again. -/
theorem resolve_collision_not_idempotent :
    resolve_collision (resolve_collision "a" ["a", "ab"] "b") ["a", "ab"] "b" ≠
      resolve_collision "a" ["a", "ab"] "b" := by
  decide

/-- C5 (amended): `resolve_collision` appends the stable id exactly when
the path is already known and is deterministic; it is idempotent provided
the id-suffixed path is not itself in the known path set. -/
theorem resolve_collision_spec (p : String) (s : List String) (id : String) :
    (p ∈ s → resolve_collision p s id = p ++ id) ∧
    (p ∉ s → resolve_collision p s id = p) ∧
    (p ++ id ∉ s →
      resolve_collision (resolve_collision p s id) s id = resolve_collision p s id) := by
  refine ⟨fun h => ?_, fun h => ?_, fun h => ?_⟩
  · simp [resolve_collision, h]
  · simp [resolve_collision, h]
  · by_cases hp : p ∈ s <;> simp [resolve_collision, hp, h]

/-- C5 witness: the amended theorem applied at concrete inputs,
discharging each hypothesis there. -/
theorem resolve_collision_spec_witness :
    resolve_collision "x" ["x"] "1" = "x" ++ "1" ∧
    resolve_collision "y" ["x"] "1" = "y" ∧
    resolve_collision (resolve_collision "x" ["x"] "1") ["x"] "1" =
      resolve_collision "x" ["x"] "1" :=
  ⟨(resolve_collision_spec "x" ["x"] "1").1 (by decide),
   (resolve_collision_spec "y" ["x"] "1").2.1 (by decide),
   (resolve_collision_spec "x" ["x"] "1").2.2 (by decide)⟩

/-- A single whose availability probe raises. -/
def unavailableVideo : YT :=
  { kind := "single", id := "gone1", name := "Gone",
    url := "https://www.youtube.com/watch?v=gone1", probe_ok := false }

/-- C6 counterexample: the claim says a raising probe leaves
`is_available` true and `get_metadata` recording `available = true`.  The
binding `get_metadata` calls is the second `is_available` definition
(tuber.py lines 189-197), which returns `False` when the probe raises. -/
theorem probe_failure_not_optimistic :
    is_available unavailableVideo = false ∧
    (get_metadata unavailableVideo).available = some false := by
  decide

/-- C6 (amended): the optimistic behaviour the claim describes belongs to
the first `is_available` definition (tuber.py lines 68-73), which is
shadowed by the second definition before any call resolves; on a single
whose probe raises, resolution still completes but the metadata records
`available = false`. -/
theorem get_metadata_pessimistic_on_probe_failure (yt : YT)
    (hk : yt.kind = "single") (hp : yt.probe_ok = false) :
    is_available_early yt = true ∧
    is_available yt = false ∧
    (get_metadata yt).available = some false := by
  simp [is_available_early, is_available, get_metadata, hk, hp]

/-- C6 witness: the amended theorem applied at a concrete failing-probe
single, discharging each hypothesis there. -/
theorem get_metadata_pessimistic_on_probe_failure_witness :
    is_available_early unavailableVideo = true ∧
    is_available unavailableVideo = false ∧
    (get_metadata unavailableVideo).available = some false :=
  get_metadata_pessimistic_on_probe_failure unavailableVideo rfl rfl

/-- C7: adding a URL whose (kind, id) is already present in the config is
reported as a no-op: whenever both files exist, the resolution option is
acceptable, the url classifies and its id extracts, and the id is already
declared under that kind in the config, `add` returns before opening or
writing anything, leaving the whole mirror state unchanged. -/
theorem add_duplicate_is_noop (st : MirrorState) (cfg : Config) (db : DB)
    (url : String) (rsv : Resolver) (opts : Options) (ans : Bool) (today : String)
    (ys id : String)
    (hc : st.configFile = some cfg) (hd : st.dbFile = some db)
    (hr : resolutionInvalid opts = false)
    (ht : link_type url = some ys) (hi : rsv.link_id = some id)
    (he : yt_exists ys id cfg = true) :
    YouMirror.add st url rsv opts ans today = (st, .alreadyExists) := by
  simp [YouMirror.add, hc, hd, hr, ht, hi, he]

/-- The config entry for the already-mirrored single used by the C7
witness. -/
def dupSpecs : Specs :=
  { name := "Dup", url := "https://www.youtube.com/watch?v=dup1",
    last_updated := "2026-10-01" }

/-- A mirror that already declares single `dup1` in its config. -/
def dupState : MirrorState :=
  { configFile := some { single := [("dup1", dupSpecs)] }, dbFile := some [] }

/-- C7 witness: the theorem applied at a concrete mirror already holding
the single, discharging each hypothesis there. -/
theorem add_duplicate_is_noop_witness :
    YouMirror.add dupState "https://www.youtube.com/watch?v=dup1"
      { link_id := some "dup1" } videoOpts false "2026-10-12" =
    (dupState, .alreadyExists) :=
  add_duplicate_is_noop dupState { single := [("dup1", dupSpecs)] } []
    "https://www.youtube.com/watch?v=dup1" { link_id := some "dup1" }
    videoOpts false "2026-10-12" "single" "dup1"
    rfl rfl (by decide) (by decide) rfl (by decide)

/-- C8: the claim says `remove` on a mirrored entity deletes its record
from the store, deletes its files unless `no_rm` is set, and rewrites the
config.  Evaluating `remove` on a mirror holding single `abc123` (in both
config and store) shows it raises `TypeError` at the `id in table`
membership test (core.py line 289: every entity-table handle is `None`
because `get_table` rejects the plural names), so nothing is deleted and
the config is not rewritten; the deletion of records and files is in any
case an unimplemented skeleton (core.py lines 288-303) and `no_rm` is
never read. -/
theorem remove_deletes_nothing :
    YouMirror.remove
      { configFile := some
          { single := [("abc123",
              { name := "My Video",
                url := "https://www.youtube.com/watch?v=abc123",
                last_updated := "2026-10-01" })] },
        dbFile := some [("singles", [("abc123", Rec.entity { name := "My Video" })])] }
      "https://www.youtube.com/watch?v=abc123" abc123Resolver false =
    ({ configFile := some
          { single := [("abc123",
              { name := "My Video",
                url := "https://www.youtube.com/watch?v=abc123",
                last_updated := "2026-10-01" })] },
        dbFile := some [("singles", [("abc123", Rec.entity { name := "My Video" })])] },
     .crashed "TypeError: membership test on None table") := by
  decide

/-- C9: adding a standalone single with id `abc123` titled `My Video`,
video download enabled and no other file-type flag, plans exactly one
file, of type video, at path `singles/My_Video.mp4` (tall layout), and the
planned single record carries `parent_type = "single"`. -/
theorem plan_single_video_tall_layout :
    get_keys abc123Video {} videoOpts [] =
    some { name := "My Video", url := "https://www.youtube.com/watch?v=abc123",
           available := some true, path := some "singles",
           parent_name := some "None", parent_type := some "single",
           files := some [("singles/My_Video.mp4", { ftype := "video" })] } := by
  decide

/-- C10: `link_type` applies its shape tests with channel markers first,
then the playlist marker, then the single marker: any URL containing a
channel marker together with a playlist or single marker classifies as a
channel, and any URL containing both the playlist and single markers but
no channel marker classifies as a playlist. -/
theorem link_type_precedence (url : String) :
    (hasChannelMarker url = true ∧
      (hasPlaylistMarker url = true ∨ hasSingleMarker url = true) →
      link_type url = some "channel") ∧
    (hasPlaylistMarker url = true ∧ hasSingleMarker url = true ∧
      hasChannelMarker url = false →
      link_type url = some "playlist") := by
  unfold link_type hasChannelMarker hasPlaylistMarker hasSingleMarker
  split_ifs with h1 h2 h3 <;> simp_all

/-- C10 witness: the theorem applied at URLs containing several markers,
discharging each hypothesis there. -/
theorem link_type_precedence_witness :
    link_type "https://www.youtube.com/c/chan/watch?v=qq" = some "channel" ∧
    link_type "https://www.youtube.com/playlist?list=PL2&watch?v=qq" = some "playlist" :=
  ⟨(link_type_precedence "https://www.youtube.com/c/chan/watch?v=qq").1
      ⟨by decide, Or.inr (by decide)⟩,
   (link_type_precedence "https://www.youtube.com/playlist?list=PL2&watch?v=qq").2
      ⟨by decide, by decide, by decide⟩⟩

